import Mathlib

/-!
Verification of the VS-mode slice (`src/config/vs_mode.rs`): a concurrent
multi-target query dispatcher with ordered aggregation and interactive
selection.  The Rust functions are shallowly embedded as pure Lean
functions; concurrency (the tokio spawn / mpsc channel fan-in) is modelled
by passing the arrival-ordered list of task messages explicitly, and the
operator's stdin line is passed as a parameter.
-/

set_option autoImplicit false

namespace VsModeSpec

/-- A responder (`Model` in the source): an opaque identity with a string id
(`model.id()` is the only observation the slice makes). -/
structure Model where
  id : String
deriving DecidableEq, Repr

/-- A chat-call failure (`anyhow::Error`): a top-level message and an
optional immediate cause (`e.source()`). -/
structure ChatError where
  message : String
  cause : Option String
deriving DecidableEq, Repr

/-- The comparison set (`VsMode` struct): the ordered list of models. -/
structure VsMode where
  models : List Model
deriving DecidableEq, Repr

instance exceptDecEq {ε α : Type} [DecidableEq ε] [DecidableEq α] :
    DecidableEq (Except ε α) := fun x y =>
  match x, y with
  | Except.ok a, Except.ok b =>
    if h : a = b then isTrue (by rw [h])
    else isFalse (fun hh => h (Except.ok.inj hh))
  | Except.error a, Except.error b =>
    if h : a = b then isTrue (by rw [h])
    else isFalse (fun hh => h (Except.error.inj hh))
  | Except.ok _, Except.error _ => isFalse (fun hh => Except.noConfusion hh)
  | Except.error _, Except.ok _ => isFalse (fun hh => Except.noConfusion hh)

/-- One labeled result (`type VsResponse = (usize, String, Result<String>)`):
completion rank, responder id, and the outcome. -/
structure VsResponse where
  rank : Nat
  model_id : String
  result : Except ChatError String
deriving DecidableEq, Repr

/-- Modelled from the spec: the user request (`Input`, from
`config/input.rs`, outside this slice) carries the user's message text;
`Input::is_empty` holds exactly for an empty message. -/
structure Input where
  text : String
deriving DecidableEq, Repr

/-- Modelled from the spec: an empty request has no message text. -/
def Input.is_empty (i : Input) : Bool :=
  i.text.isEmpty

/-- The active session (only `session.set_model` is used by this slice). -/
structure Session where
  model : Model
deriving DecidableEq, Repr

/-- The process-wide configuration state (`GlobalConfig`), restricted to the
fields this slice reads or writes: the optional comparison set, the default
model (`cfg.model`), the optional session, and the conversation record
(`after_chat_completion` appends to it — modelled from the spec as the
external commit collaborator).  `renderOk` models the external markdown
renderer (`config.print_markdown`): `renderOk s = true` iff rendering `s`
succeeds. -/
structure Config where
  vs_mode : Option VsMode
  model : Model
  session : Option Session
  history : List (Input × String)
  renderOk : String → Bool

/-- The error kinds surfaced by the slice (each `bail!` / `anyhow!` site). -/
inductive VsError
  | invalidArity
  | unknownResponder (id : String)
  | modeInactive
  | invalidSelection
  | noSelectableResults
  | selectionNotFound
  | renderFailed
deriving DecidableEq, Repr

/-- ASCII lower-casing of one character (`u8::to_ascii_lowercase`). -/
def ascii_lower (c : Char) : Char :=
  if 'A' ≤ c ∧ c ≤ 'Z' then Char.ofNat (c.toNat + 32) else c

/-- `str::eq_ignore_ascii_case` on character lists. -/
def eq_ignore_ascii_case (a b : List Char) : Bool :=
  a.map ascii_lower == b.map ascii_lower

/-- `str::trim`: strip whitespace from both ends. -/
def trim_chars (cs : List Char) : List Char :=
  ((cs.dropWhile Char.isWhitespace).reverse.dropWhile Char.isWhitespace).reverse

/-- Decimal digits to a number; `none` when empty or a non-digit occurs. -/
def digits_value (cs : List Char) : Option Nat :=
  if cs.isEmpty then none
  else if cs.all Char.isDigit then
    some (cs.foldl (fun acc c => acc * 10 + (c.toNat - 48)) 0)
  else none

/-- `str::parse::<usize>()`: an optional leading `+`, then decimal digits,
failing on overflow past the 64-bit range. -/
def parse_usize (cs : List Char) : Option Nat :=
  let body := match cs with
    | '+' :: rest => rest
    | _ => cs
  match digits_value body with
  | some n => if n < 2 ^ 64 then some n else none
  | none => none

/-- Outcome of `parse_selection`: the `std::process::exit(0)` path, the
`Invalid selection` error, or a validated 1-based choice. -/
inductive Selection
  | exitProcess
  | invalid
  | selected (n : Nat)
deriving DecidableEq, Repr

/-- `parse_selection(input, max_value)`: trim; `exit`/`quit`
(ASCII-case-insensitive) terminate the process; otherwise parse a `usize`
and require `1 ≤ n ≤ max_value`. -/
def parse_selection (input : String) (max_value : Nat) : Selection :=
  let trimmed := trim_chars input.toList
  if eq_ignore_ascii_case trimmed "exit".toList
      || eq_ignore_ascii_case trimmed "quit".toList then
    Selection.exitProcess
  else
    match parse_usize trimmed with
    | none => Selection.invalid
    | some n =>
      if n < 1 || max_value < n then Selection.invalid
      else Selection.selected n

/-- Whether an outcome is a success (`result.is_ok()`). -/
def vs_is_ok (r : Except ChatError String) : Bool :=
  match r with
  | Except.ok _ => true
  | Except.error _ => false

/-- The selection menu (`display_order`): the loop over the result batch
that keeps only successful entries, as `(display rank, responder id)`
pairs, printed as `[rank] model_id` lines. -/
def build_display_order : List VsResponse → List (Nat × String)
  | [] => []
  | r :: rest =>
    if vs_is_ok r.result then (r.rank, r.model_id) :: build_display_order rest
    else build_display_order rest

/-- `Iterator::position`: index of the first element satisfying `p`. -/
def find_position {α : Type} (p : α → Bool) : List α → Option Nat
  | [] => none
  | x :: xs => if p x then some 0 else (find_position p xs).map (· + 1)

/-- `Iterator::find` specialised to matching a display rank. -/
def find_by_rank (sdi : Nat) : List VsResponse → Option VsResponse
  | [] => none
  | r :: rest => if r.rank == sdi then some r else find_by_rank sdi rest

/-- The `original_index` computation of `select_response_without_display`:
the position of the chosen display rank within the (arrival-ordered) result
batch, defaulting to 0 when absent (`unwrap_or(0)`). -/
def original_model_index (results : List VsResponse) (sdi : Nat) : Nat :=
  (find_position (fun r => r.rank == sdi) results).getD 0

/-- Result of the selector: success, operator-requested process exit,
an error, or a Rust panic (`unwrap` / out-of-bounds indexing). -/
inductive SelectResult
  | ok
  | exited
  | err (e : VsError)
  | panicked
deriving DecidableEq, Repr

/-- `select_response_without_display(config, user_input, results)` with the
operator's stdin line passed as `selection_str`.  Returns the outcome and
the updated configuration.  `after_chat_completion` is modelled from the
spec as appending exactly one (request, response) pair to the conversation
record. -/
def select_response_without_display (config : Config) (user_input : Input)
    (results : List VsResponse) (selection_str : String) :
    SelectResult × Config :=
  let display_order := build_display_order results
  if display_order.isEmpty then
    (SelectResult.err VsError.noSelectableResults, config)
  else
    match parse_selection selection_str display_order.length with
    | Selection.exitProcess => (SelectResult.exited, config)
    | Selection.invalid => (SelectResult.err VsError.invalidSelection, config)
    | Selection.selected selection =>
      match display_order.get? (selection - 1) with
      | none => (SelectResult.panicked, config)
      | some (selected_display_index, _) =>
        match find_by_rank selected_display_index results with
        | none => (SelectResult.err VsError.selectionNotFound, config)
        | some r =>
          match r.result with
          | Except.error _ => (SelectResult.ok, config)
          | Except.ok response =>
            match config.vs_mode with
            | none => (SelectResult.panicked, config)
            | some vs_mode =>
              let original_index := original_model_index results selected_display_index
              let selected_model := (vs_mode.models.get? original_index).getD config.model
              let config' := { config with
                history := config.history ++ [(user_input, response)] }
              let config'' := match config'.session with
                | some _ => { config' with session := some { model := selected_model } }
                | none => config'
              (SelectResult.ok, config'')

/-- The header text of `print_response_header`:
`format!("--- [{}] {} ---", index, model_id)`. -/
def header_text (index : Nat) (model_id : String) : String :=
  "--- [" ++ toString index ++ "] " ++ model_id ++ " ---"

/-- `print_response_header(index, model_id)`: the printed line, as a pure
function of the terminal width (`terminal::size()` is `some w` when the
width is known, `none` when it cannot be determined; the code falls back to
80).  `header.len()` in Rust is the UTF-8 byte length, and
`width.saturating_sub` is truncated subtraction. -/
def print_response_header (width : Option Nat) (index : Nat) (model_id : String) : String :=
  let header := header_text index model_id
  let w := width.getD 80
  let dash_count := w - header.utf8ByteSize
  header ++ String.mk (List.replicate dash_count '-')

/-- `display_response(config, result)`: returns `true` for `Ok(())` and
`false` when it returns an error.  A success renders through
`config.print_markdown` (which can fail, and that failure is propagated by
the `?` operator); a failure is written to stderr with its immediate cause,
which never fails. -/
def display_response (config : Config) (result : Except ChatError String) : Bool :=
  match result with
  | Except.ok output => config.renderOk output
  | Except.error _ => true

/-- One message sent by a spawned task:
`(submission index, model.id(), chat outcome)`. -/
abbrev TaskMessage := Nat × String × Except ChatError String

/-- The messages produced by the spawn loop of `ask_vs`, one per model at
its submission index (`outcomes i` is the chat call's result for the model
at index `i`).  The channel delivers them in an arbitrary arrival order: a
permutation of this list. -/
def spawned_messages (models : List Model)
    (outcomes : Nat → Except ChatError String) : List TaskMessage :=
  models.enum.map (fun p => (p.1, p.2.id, outcomes p.1))

/-- The aggregation loop of `ask_vs` (`while let Some(..) = rx.recv()`):
for each arrival, increment the completion counter, display the result
(aborting with `Err` — first component `false` — if displaying fails), and
push `(completed, model_id, result)` onto the batch. -/
def vs_loop (config : Config) : List TaskMessage → Nat → List VsResponse →
    Bool × List VsResponse
  | [], _, acc => (true, acc)
  | (_, model_id, result) :: rest, completed, acc =>
    if display_response config result then
      vs_loop config rest (completed + 1)
        (acc ++ [{ rank := completed + 1, model_id := model_id, result := result }])
    else (false, acc)

/-- The full outcome of one `ask_vs` call: the returned value (with the
selector's exit/panic possibilities folded in), the result batch at loop
exit, the number of tasks spawned (each spawned task creates one client and
issues one chat call, so 0 means no network activity), and the final
configuration state. -/
structure AskVsOut where
  outcome : SelectResult
  batch : List VsResponse
  spawn_count : Nat
  config : Config

/-- `ask_vs(config, input, _abort_signal, show_selection)`: empty inputs
return `Ok(())` immediately; without an active comparison set it bails with
`Not in VS mode`; otherwise it spawns one task per model, aggregates the
`arrivals` (the channel's delivery order) via `vs_loop`, and — in
interactive mode — runs the selector on the batch with the operator's
`selection_str`. -/
def ask_vs (config : Config) (input : Input) (show_selection : Bool)
    (selection_str : String) (arrivals : List TaskMessage) : AskVsOut :=
  if input.is_empty then
    { outcome := SelectResult.ok, batch := [], spawn_count := 0, config := config }
  else
    match config.vs_mode with
    | none =>
      { outcome := SelectResult.err VsError.modeInactive, batch := [],
        spawn_count := 0, config := config }
    | some vs_mode =>
      let spawn_count := vs_mode.models.length
      match vs_loop config arrivals 0 [] with
      | (false, batch) =>
        { outcome := SelectResult.err VsError.renderFailed, batch := batch,
          spawn_count := spawn_count, config := config }
      | (true, batch) =>
        if show_selection then
          let sel := select_response_without_display config input batch selection_str
          { outcome := sel.1, batch := batch, spawn_count := spawn_count,
            config := sel.2 }
        else
          { outcome := SelectResult.ok, batch := batch,
            spawn_count := spawn_count, config := config }

/-- `str::split(',')` on character lists: the comma-separated groups
(an empty string yields one empty group, as in Rust). -/
def split_commas : List Char → List (List Char)
  | [] => [[]]
  | c :: rest =>
    if c = ',' then [] :: split_commas rest
    else
      match split_commas rest with
      | [] => [[c]]
      | g :: gs => (c :: g) :: gs

/-- `models_str.split(',').map(|s| s.trim())`: the identifier list given to
`vs_mode_init`. -/
def models_list_of (models_str : String) : List String :=
  (split_commas models_str.toList).map (fun cs => String.mk (trim_chars cs))

/-- The resolution loop of `vs_mode_init`: resolve each identifier against
the chat-capable catalog in order, stopping at the first failure.  Returns
the outcome together with the number of `retrieve_model` calls made.
The catalog function models `Model::retrieve_model(.., ModelType::Chat)`,
an external collaborator. -/
def resolve_models (catalog : String → Option Model) :
    List String → Except VsError (List Model) × Nat
  | [] => (Except.ok [], 0)
  | id :: rest =>
    match catalog id with
    | none => (Except.error (VsError.unknownResponder id), 1)
    | some m =>
      match resolve_models catalog rest with
      | (Except.ok ms, n) => (Except.ok (m :: ms), n + 1)
      | (Except.error e, n) => (Except.error e, n + 1)

/-- `vs_mode_init(config, models_str)`: split and trim the identifiers,
bail with the arity error when fewer than 2, otherwise resolve each and
store the comparison set in the configuration.  Returns the result, the
final configuration, and the number of `retrieve_model` calls made. -/
def vs_mode_init (catalog : String → Option Model) (config : Config)
    (models_str : String) : Except VsError Unit × Config × Nat :=
  let models_list := models_list_of models_str
  if models_list.length < 2 then
    (Except.error VsError.invalidArity, config, 0)
  else
    match resolve_models catalog models_list with
    | (Except.ok ms, n) =>
      (Except.ok (), { config with vs_mode := some { models := ms } }, n)
    | (Except.error e, n) => (Except.error e, config, n)

/-- `Config::exit_vs_mode`: unconditionally clear the comparison set. -/
def exit_vs_mode (config : Config) : Config :=
  { config with vs_mode := none }

/-! ### Concrete instances used by witnesses and counterexamples -/

/-- A two-model comparison set. -/
def models_ab : List Model := [{ id := "a" }, { id := "b" }]

/-- The spec's example comparison set, in submission order. -/
def models_abg : List Model := [{ id := "Alpha" }, { id := "Beta" }, { id := "Gamma" }]

/-- A configuration in VS mode with an active session, whose renderer
always succeeds. -/
def cfg_sel : Config :=
  { vs_mode := some { models := models_abg }, model := { id := "Default" },
    session := some { model := { id := "Alpha" } }, history := [],
    renderOk := fun _ => true }

/-- A configuration whose markdown renderer always fails. -/
def cfg_norender : Config :=
  { vs_mode := some { models := models_ab }, model := { id := "d" },
    session := none, history := [], renderOk := fun _ => false }

/-- A configuration whose markdown renderer always succeeds. -/
def cfg_render : Config :=
  { vs_mode := some { models := models_ab }, model := { id := "d" },
    session := none, history := [], renderOk := fun _ => true }

/-- The spec's example result batch: Gamma arrives first (success), then
Alpha (failure), then Beta (success). -/
def batch_abg : List VsResponse :=
  [{ rank := 1, model_id := "Gamma", result := Except.ok "g-text" },
   { rank := 2, model_id := "Alpha",
     result := Except.error { message := "timeout", cause := none } },
   { rank := 3, model_id := "Beta", result := Except.ok "b-text" }]

/-- A batch whose ranks are contiguous from 1, one entry failed. -/
def batch_ranked : List VsResponse :=
  [{ rank := 1, model_id := "a", result := Except.ok "x" },
   { rank := 2, model_id := "b",
     result := Except.error { message := "boom", cause := none } }]

/-- A catalog resolving exactly the identifiers `a` and `b`. -/
def catalog_ab : String → Option Model :=
  fun id => if id = "a" ∨ id = "b" then some { id := id } else none

/-! ### Helper lemmas -/

theorem nat_sub_as_int_max (n m : Nat) :
    n - m = Int.toNat (max 0 ((n : Int) - (m : Int))) := by
  rcases le_total ((n : Int) - (m : Int)) 0 with h | h
  · rw [max_eq_left h]
    omega
  · rw [max_eq_right h]
    omega

/-! ### Claims -/

/-- C9: for every rank and responder id, the printed response header is the
header text (containing the rank and responder id) followed by a horizontal
rule of length `max(0, width - header_text_length)`, where the width
defaults to 80 when the terminal width cannot be determined. -/
theorem claim_c9 (width : Option Nat) (index : Nat) (model_id : String) :
    print_response_header width index model_id =
      header_text index model_id ++
        String.mk (List.replicate
          (Int.toNat (max 0 ((width.getD 80 : Int)
            - ((header_text index model_id).utf8ByteSize : Int)))) '-') := by
  simp only [print_response_header]
  rw [nat_sub_as_int_max]

/-- C7: an empty request makes `ask_vs` return success immediately, with no
spawned task (hence no client creation and no chat call) and an empty
result batch, leaving the configuration untouched. -/
theorem claim_c7 (config : Config) (input : Input) (show_selection : Bool)
    (selection_str : String) (arrivals : List TaskMessage)
    (h : input.is_empty = true) :
    ask_vs config input show_selection selection_str arrivals =
      { outcome := SelectResult.ok, batch := [], spawn_count := 0,
        config := config } := by
  simp [ask_vs, h]

/-- C7 witness: the empty input at a concrete configuration. -/
theorem claim_c7_witness :
    Input.is_empty { text := "" } = true ∧
      ask_vs cfg_sel { text := "" } true "1" [] =
        { outcome := SelectResult.ok, batch := [], spawn_count := 0,
          config := cfg_sel } :=
  ⟨by decide, claim_c7 cfg_sel { text := "" } true "1" [] (by decide)⟩

/-- C2 counterexample: when the markdown renderer fails, displaying a
successful result returns an error (`false` means the Rust function
returned `Err`), contradicting the claim that the presenter never fails. -/
theorem claim_c2_counterexample :
    display_response cfg_norender (Except.ok "content") = false := rfl

/-- C2 amended: displaying a failed result never returns an error, and
displaying a successful result returns an error exactly when the markdown
renderer fails on its content (that error propagates out of the
aggregation loop through the `?` operator). -/
theorem claim_c2_amended (config : Config) (result : Except ChatError String) :
    display_response config result = false ↔
      ∃ s, result = Except.ok s ∧ config.renderOk s = false := by
  cases result with
  | ok s => simp [display_response]
  | error e => simp [display_response]

/-- C4 counterexample: for the spec's own example batch (successes at ranks
1 and 3), the selector's displayed numbers are the completion ranks `[1, 3]`,
not the contiguous `1..K` relabelling `[1, 2]` that the claim states
(K = 2 successes). -/
theorem claim_c4_counterexample :
    (build_display_order batch_abg).map Prod.fst ≠
      List.range' 1 (batch_abg.filter (fun r => vs_is_ok r.result)).length := by
  decide

/-- C4 amended: the selector's menu contains exactly the successful entries
of the result batch, in batch (arrival) order, each displayed with its own
completion rank (and responder id) — the numbers are the ranks of the
successful entries, not a renumbering `1..K`. -/
theorem claim_c4_amended (results : List VsResponse) :
    build_display_order results =
      (results.filter (fun r => vs_is_ok r.result)).map
        (fun r => (r.rank, r.model_id)) := by
  induction results with
  | nil => rfl
  | cons r rest ih =>
    by_cases h : vs_is_ok r.result <;>
      simp [build_display_order, List.filter_cons, h, ih]

theorem resolve_models_all_some (catalog : String → Option Model)
    (ids : List String) (h : ∀ id ∈ ids, (catalog id).isSome = true) :
    ∃ ms : List Model,
      resolve_models catalog ids = (Except.ok ms, ids.length)
        ∧ ms.length = ids.length := by
  induction ids with
  | nil => exact ⟨[], rfl, rfl⟩
  | cons id rest ih =>
    obtain ⟨m, hm⟩ : ∃ m, catalog id = some m := by
      have h1 := h id (List.mem_cons_self id rest)
      cases hcat : catalog id with
      | none => rw [hcat] at h1; exact absurd h1 (by simp)
      | some m => exact ⟨m, rfl⟩
    obtain ⟨ms, h2, h3⟩ := ih (fun x hx => h x (List.mem_cons_of_mem id hx))
    refine ⟨m :: ms, ?_, by simp [h3]⟩
    simp [resolve_models, hm, h2]

/-- C6: entering VS mode with fewer than 2 identifiers fails with the arity
error before resolving any identifier (0 catalog calls); entering with 2 or
more identifiers that all resolve succeeds, stores the comparison set, and
the stored set's length equals the number of identifiers given. -/
theorem claim_c6 (catalog : String → Option Model) (config : Config)
    (models_str : String) :
    ((models_list_of models_str).length < 2 →
      vs_mode_init catalog config models_str =
        (Except.error VsError.invalidArity, config, 0))
    ∧ (2 ≤ (models_list_of models_str).length →
        (∀ id ∈ models_list_of models_str, (catalog id).isSome = true) →
        ∃ vm : VsMode,
          vs_mode_init catalog config models_str =
            (Except.ok (), { config with vs_mode := some vm },
              (models_list_of models_str).length)
          ∧ vm.models.length = (models_list_of models_str).length) := by
  constructor
  · intro h
    simp [vs_mode_init, h]
  · intro h hall
    obtain ⟨ms, h1, h2⟩ := resolve_models_all_some catalog _ hall
    refine ⟨{ models := ms }, ?_, h2⟩
    simp [vs_mode_init, h1]
    omega

/-- C6 witness: a one-identifier string fails with the arity error and no
resolution; a two-identifier string over a resolving catalog succeeds with
a stored set of length 2. -/
theorem claim_c6_witness :
    (models_list_of "a").length = 1
    ∧ vs_mode_init catalog_ab cfg_sel "a" =
        (Except.error VsError.invalidArity, cfg_sel, 0)
    ∧ (models_list_of "a,b").length = 2
    ∧ (∃ vm : VsMode,
        vs_mode_init catalog_ab cfg_sel "a,b" =
          (Except.ok (), { cfg_sel with vs_mode := some vm },
            (models_list_of "a,b").length)
        ∧ vm.models.length = (models_list_of "a,b").length) :=
  ⟨by decide, (claim_c6 catalog_ab cfg_sel "a").1 (by decide), by decide,
    (claim_c6 catalog_ab cfg_sel "a,b").2 (by decide) (by decide)⟩

/-- C8 counterexample: `exit` is an operator input string that is not an
integer, yet selection does not fail with the invalid-selection error — it
terminates the whole process (`std::process::exit(0)`), so the claim's
universal statement over non-integer inputs is false. -/
theorem claim_c8_counterexample :
    (select_response_without_display cfg_sel { text := "q" } batch_abg
        "exit").1 = SelectResult.exited
    ∧ SelectResult.exited ≠ SelectResult.err VsError.invalidSelection := by
  constructor
  · decide
  · decide

/-- C8 amended: for every operator input string that (after trimming) is
not the case-insensitive token `exit` or `quit`, and is not an integer or
is an integer outside `[1, K]` (K the successful count), selection fails
with the invalid-selection error and the configuration — in particular the
conversation record and the session — is left unmodified. -/
theorem claim_c8_amended (config : Config) (user_input : Input)
    (results : List VsResponse) (selection_str : String)
    (hne : build_display_order results ≠ [])
    (hnx : eq_ignore_ascii_case (trim_chars selection_str.toList)
      "exit".toList = false)
    (hnq : eq_ignore_ascii_case (trim_chars selection_str.toList)
      "quit".toList = false)
    (hbad : parse_usize (trim_chars selection_str.toList) = none
      ∨ ∃ n, parse_usize (trim_chars selection_str.toList) = some n
          ∧ (n < 1 ∨ (build_display_order results).length < n)) :
    select_response_without_display config user_input results selection_str =
      (SelectResult.err VsError.invalidSelection, config) := by
  have hp : parse_selection selection_str (build_display_order results).length
      = Selection.invalid := by
    unfold parse_selection
    simp only [hnx, hnq, Bool.or_self, Bool.false_eq_true, if_false]
    rcases hbad with h | ⟨n, h1, h2⟩
    · have h' : parse_usize (trim_chars selection_str.data) = none := h
      simp [h']
    · have h1' : parse_usize (trim_chars selection_str.data) = some n := h1
      have hcond : n = 0 ∨ (build_display_order results).length < n := by omega
      simp [h1', hcond]
  have hempty : (build_display_order results).isEmpty = false := by
    cases h : build_display_order results with
    | nil => exact absurd h hne
    | cons a l => rfl
  unfold select_response_without_display
  simp only [hempty, Bool.false_eq_true, if_false, hp]

/-- C8 witness: the out-of-range input `0` at a concrete batch with two
successes fails with the invalid-selection error and leaves the
configuration unchanged. -/
theorem claim_c8_witness :
    select_response_without_display cfg_sel { text := "q" } batch_abg "0" =
      (SelectResult.err VsError.invalidSelection, cfg_sel) :=
  claim_c8_amended cfg_sel { text := "q" } batch_abg "0" (by decide)
    (by decide) (by decide) (Or.inr ⟨0, by decide, Or.inl (by decide)⟩)

theorem select_success (config : Config) (user_input : Input)
    (results : List VsResponse) (selection_str : String) (vm : VsMode)
    (s : Session) (n sdi : Nat) (mid : String) (r : VsResponse) (resp : String)
    (hvm : config.vs_mode = some vm)
    (hsess : config.session = some s)
    (hne : build_display_order results ≠ [])
    (hp : parse_selection selection_str (build_display_order results).length
      = Selection.selected n)
    (hget : (build_display_order results).get? (n - 1) = some (sdi, mid))
    (hfind : find_by_rank sdi results = some r)
    (hok : r.result = Except.ok resp) :
    select_response_without_display config user_input results selection_str =
      (SelectResult.ok,
        { config with
          history := config.history ++ [(user_input, resp)],
          session := some { model := (
            (vm.models.get? (original_model_index results sdi)).getD
              config.model) } }) := by
  have hempty : (build_display_order results).isEmpty = false := by
    cases h : build_display_order results with
    | nil => exact absurd h hne
    | cons a l => rfl
  unfold select_response_without_display
  simp only [hempty, Bool.false_eq_true, if_false, hp, hget, hfind, hok, hvm,
    hsess]

/-- C1: on a valid choice, the responder committed to the session is
resolved by locating the positional index of the chosen labeled result
within the arrival-ordered batch (`position` of its display rank) and
indexing the comparison set's model sequence with that position, falling
back to the configured default model when the position is out of range. -/
theorem claim_c1 (config : Config) (user_input : Input)
    (results : List VsResponse) (selection_str : String) (vm : VsMode)
    (s : Session) (n sdi : Nat) (mid : String) (r : VsResponse) (resp : String)
    (hvm : config.vs_mode = some vm)
    (hsess : config.session = some s)
    (hne : build_display_order results ≠ [])
    (hp : parse_selection selection_str (build_display_order results).length
      = Selection.selected n)
    (hget : (build_display_order results).get? (n - 1) = some (sdi, mid))
    (hfind : find_by_rank sdi results = some r)
    (hok : r.result = Except.ok resp) :
    (select_response_without_display config user_input results
        selection_str).2.session =
      some { model := (
        (vm.models.get?
          ((find_position (fun x => x.rank == sdi) results).getD 0)).getD
          config.model) } := by
  rw [select_success config user_input results selection_str vm s n sdi mid
    r resp hvm hsess hne hp hget hfind hok]
  rfl

/-- C1 witness: in the spec's example scenario, choosing menu entry 2
(display rank 3, Beta's response) rebinds the session to Gamma — the model
at batch position 2 — illustrating the positional resolution. -/
theorem claim_c1_witness :
    (select_response_without_display cfg_sel { text := "q" } batch_abg
        "2").2.session = some { model := { id := "Gamma" } } :=
  claim_c1 cfg_sel { text := "q" } batch_abg "2" { models := models_abg }
    { model := { id := "Alpha" } } 2 3 "Beta"
    { rank := 3, model_id := "Beta", result := Except.ok "b-text" } "b-text"
    rfl rfl (by decide) (by decide) (by decide) (by decide) rfl

/-- C5: a successful selection of a successful labeled result appends
exactly one (request, response) pair to the conversation record and sets
the session's model exactly once, to the resolved responder. -/
theorem claim_c5 (config : Config) (user_input : Input)
    (results : List VsResponse) (selection_str : String) (vm : VsMode)
    (s : Session) (n sdi : Nat) (mid : String) (r : VsResponse) (resp : String)
    (hvm : config.vs_mode = some vm)
    (hsess : config.session = some s)
    (hne : build_display_order results ≠ [])
    (hp : parse_selection selection_str (build_display_order results).length
      = Selection.selected n)
    (hget : (build_display_order results).get? (n - 1) = some (sdi, mid))
    (hfind : find_by_rank sdi results = some r)
    (hok : r.result = Except.ok resp) :
    (select_response_without_display config user_input results
        selection_str).1 = SelectResult.ok
    ∧ (select_response_without_display config user_input results
        selection_str).2.history = config.history ++ [(user_input, resp)]
    ∧ (select_response_without_display config user_input results
        selection_str).2.session =
        some { model := (
          (vm.models.get? (original_model_index results sdi)).getD
            config.model) } := by
  rw [select_success config user_input results selection_str vm s n sdi mid
    r resp hvm hsess hne hp hget hfind hok]
  exact ⟨rfl, rfl, rfl⟩

/-- C5 witness: in the spec's example scenario, choosing menu entry 1
(Gamma's response) appends the single pair (request, `g-text`) to the
record and rebinds the session once, to the resolved model Alpha. -/
theorem claim_c5_witness :
    (select_response_without_display cfg_sel { text := "q" } batch_abg
        "1").1 = SelectResult.ok
    ∧ (select_response_without_display cfg_sel { text := "q" } batch_abg
        "1").2.history = cfg_sel.history ++ [({ text := "q" }, "g-text")]
    ∧ (select_response_without_display cfg_sel { text := "q" } batch_abg
        "1").2.session = some { model := { id := "Alpha" } } :=
  claim_c5 cfg_sel { text := "q" } batch_abg "1" { models := models_abg }
    { model := { id := "Alpha" } } 1 1 "Gamma"
    { rank := 1, model_id := "Gamma", result := Except.ok "g-text" } "g-text"
    rfl rfl (by decide) (by decide) (by decide) (by decide) rfl

theorem vs_loop_all_ok (config : Config) (msgs : List TaskMessage)
    (c : Nat) (acc : List VsResponse)
    (h : ∀ x ∈ msgs, display_response config x.2.2 = true) :
    (vs_loop config msgs c acc).1 = true
    ∧ (vs_loop config msgs c acc).2.map VsResponse.rank
        = acc.map VsResponse.rank ++ List.range' (c + 1) msgs.length := by
  induction msgs generalizing c acc with
  | nil => simp [vs_loop]
  | cons m rest ih =>
    obtain ⟨i, id, r⟩ := m
    have hm : display_response config r = true := h _ (List.mem_cons_self _ _)
    have hrest := ih (c + 1)
      (acc ++ [{ rank := c + 1, model_id := id, result := r }])
      (fun x hx => h x (List.mem_cons_of_mem _ hx))
    constructor
    · simpa [vs_loop, hm] using hrest.1
    · rw [show vs_loop config ((i, id, r) :: rest) c acc
        = vs_loop config rest (c + 1)
            (acc ++ [{ rank := c + 1, model_id := id, result := r }])
        from by simp [vs_loop, hm]]
      rw [hrest.2]
      simp [List.range']

/-- C3 counterexample: a dispatch round over two models where every chat
call succeeds but markdown rendering fails: the first display aborts the
aggregation loop, so the batch at loop exit has 0 labeled results instead
of 2, contradicting the claim. -/
theorem claim_c3_counterexample :
    models_ab.length = 2
    ∧ (ask_vs cfg_norender { text := "hi" } false ""
        (spawned_messages models_ab (fun _ => Except.ok "x"))).batch.length
        = 0
    ∧ (ask_vs cfg_norender { text := "hi" } false ""
        (spawned_messages models_ab (fun _ => Except.ok "x"))).outcome
        = SelectResult.err VsError.renderFailed := by
  refine ⟨rfl, ?_, ?_⟩ <;> decide

/-- C3 amended: for every dispatch round over a comparison set of N models
— provided displaying every arrived result succeeds (markdown rendering
does not fail) — the result batch at loop termination has exactly N
labeled results and their completion ranks are exactly the contiguous
sequence 1..N, assigned in arrival order, regardless of how many
individual targets fail. -/
theorem claim_c3_amended (config : Config) (input : Input)
    (show_selection : Bool) (selection_str : String) (vm : VsMode)
    (outcomes : Nat → Except ChatError String) (arrivals : List TaskMessage)
    (hin : input.is_empty = false)
    (hvm : config.vs_mode = some vm)
    (hperm : arrivals.Perm (spawned_messages vm.models outcomes))
    (hdisp : ∀ x ∈ arrivals, display_response config x.2.2 = true) :
    (ask_vs config input show_selection selection_str arrivals).batch.length
      = vm.models.length
    ∧ (ask_vs config input show_selection selection_str
        arrivals).batch.map VsResponse.rank
        = List.range' 1 vm.models.length := by
  have hlen : arrivals.length = vm.models.length := by
    have h1 := hperm.length_eq
    simpa [spawned_messages] using h1
  have hloop := vs_loop_all_ok config arrivals 0 [] hdisp
  rcases hp : vs_loop config arrivals 0 [] with ⟨ok, batch⟩
  rw [hp] at hloop
  have hok : ok = true := hloop.1
  subst hok
  have hmap : batch.map VsResponse.rank = List.range' 1 arrivals.length := by
    simpa using hloop.2
  have hblen : batch.length = arrivals.length := by
    have := congrArg List.length hmap
    simpa using this
  have hbatch : (ask_vs config input show_selection selection_str
      arrivals).batch = batch := by
    cases show_selection <;> simp [ask_vs, hin, hvm, hp]
  rw [hbatch, hmap, hblen, hlen]
  exact ⟨rfl, rfl⟩

/-- C3 witness: a concrete two-model round (one success, one failure) with
a succeeding renderer: the batch has exactly 2 entries with ranks [1, 2]. -/
theorem claim_c3_witness :
    (ask_vs cfg_render { text := "hi" } false ""
      (spawned_messages models_ab
        (fun i => if i = 0 then Except.ok "x"
          else Except.error { message := "boom", cause := none }))).batch.length
      = 2
    ∧ (ask_vs cfg_render { text := "hi" } false ""
        (spawned_messages models_ab
          (fun i => if i = 0 then Except.ok "x"
            else Except.error { message := "boom", cause := none }))).batch.map
          VsResponse.rank = List.range' 1 2 :=
  claim_c3_amended cfg_render { text := "hi" } false ""
    { models := models_ab }
    (fun i => if i = 0 then Except.ok "x"
      else Except.error { message := "boom", cause := none })
    (spawned_messages models_ab
      (fun i => if i = 0 then Except.ok "x"
        else Except.error { message := "boom", cause := none }))
    (by decide) rfl (List.Perm.refl _) (by decide)

theorem find_position_rank (rs : List VsResponse) (c j t : Nat)
    (hranks : ∀ i (h : i < rs.length), (rs.get ⟨i, h⟩).rank = i + 1 + c)
    (hj : j < rs.length) (ht : t = j + 1 + c) :
    find_position (fun r => r.rank == t) rs = some j := by
  induction rs generalizing c j t with
  | nil => simp at hj
  | cons r rest ih =>
    have hr0 : r.rank = 1 + c := by
      have h0 := hranks 0 (by simp)
      simpa using h0
    cases j with
    | zero =>
      have hb : (r.rank == t) = true := by simp [hr0, ht]
      simp [find_position, hb]
    | succ j' =>
      have hb : (r.rank == t) = false := by simp [hr0, ht]
      have hrest : ∀ i (h : i < rest.length),
          (rest.get ⟨i, h⟩).rank = i + 1 + (c + 1) := by
        intro i hi
        have h1 := hranks (i + 1) (Nat.succ_lt_succ hi)
        rw [List.get_cons_succ] at h1
        omega
      have hj' : j' < rest.length := by simp at hj; omega
      have hrec := ih (c + 1) j' t hrest hj' (by omega)
      simp [find_position, hb, hrec]

theorem mem_display_order_rank (results : List VsResponse) (sdi : Nat)
    (mid : String) (hmem : (sdi, mid) ∈ build_display_order results) :
    ∃ r ∈ results, r.rank = sdi := by
  induction results with
  | nil => simp [build_display_order] at hmem
  | cons r rest ih =>
    by_cases h : vs_is_ok r.result
    · simp only [build_display_order, h, if_true, List.mem_cons] at hmem
      rcases hmem with hmem | hmem
      · have : r.rank = sdi := by
          have := congrArg Prod.fst hmem
          simpa using this.symm
        exact ⟨r, List.mem_cons_self _ _, this⟩
      · obtain ⟨r', h1, h2⟩ := ih hmem
        exact ⟨r', List.mem_cons_of_mem _ h1, h2⟩
    · simp only [build_display_order, h, if_false] at hmem
      obtain ⟨r', h1, h2⟩ := ih hmem
      exact ⟨r', List.mem_cons_of_mem _ h1, h2⟩

/-- C10: when the batch's ranks are the contiguous sequence 1..N with N the
comparison set's length (as `ask_vs` produces), the positional index
recomputed for any displayed rank equals rank − 1, a valid index into the
model sequence, so the lookup never misses and the default-responder
fallback is never taken. -/
theorem claim_c10 (vm : VsMode) (results : List VsResponse) (sdi : Nat)
    (mid : String)
    (hlen : results.length = vm.models.length)
    (hranks : ∀ i (h : i < results.length), (results.get ⟨i, h⟩).rank = i + 1)
    (hmem : (sdi, mid) ∈ build_display_order results) :
    original_model_index results sdi = sdi - 1
    ∧ (vm.models.get? (original_model_index results sdi)).isSome = true := by
  obtain ⟨r, hr, hrank⟩ := mem_display_order_rank results sdi mid hmem
  obtain ⟨⟨j, hj⟩, hget⟩ := List.get_of_mem hr
  have hsdij : sdi = j + 1 := by
    rw [← hrank, ← hget, hranks j hj]
  have hpos := find_position_rank results 0 j sdi
    (fun i h => hranks i h) hj (by omega)
  have hidx : original_model_index results sdi = sdi - 1 := by
    rw [original_model_index, hpos]
    simp
    omega
  refine ⟨hidx, ?_⟩
  rw [hidx]
  have hlt : sdi - 1 < vm.models.length := by omega
  rw [List.get?_eq_get hlt]
  rfl

/-- C10 witness: a contiguous-rank batch over a two-model set — the
recomputed index for the displayed rank 1 is 0 and the model lookup
succeeds. -/
theorem claim_c10_witness :
    original_model_index batch_ranked 1 = 0
    ∧ ((VsMode.mk models_ab).models.get?
        (original_model_index batch_ranked 1)).isSome = true :=
  claim_c10 { models := models_ab } batch_ranked 1 "a" rfl (by decide)
    (by decide)

end VsModeSpec
